import Mathlib

/-!
Verification development for a movie-library web client.

The favorites reconciliation core (`MovieProvider` in the contexts module)
owns an in-memory favourites list backed either by browser local storage
(anonymous session) or by a per-user remote document collection
(authenticated session).  We embed that core shallowly: the remote store is
a flat list of documents keyed by (user id, document key), local storage
holds the parsed JSON list (JSON round-tripping is modelled as the
identity), and each handler of the source becomes a Lean function on an
explicit application state.  Remote calls that can fail take a Boolean
failure flag; each handler reports whether a failure was caught-and-logged
or escaped the handler uncaught.
-/

/-- A movie value object: a numeric id plus an opaque payload (the title
standing in for the remaining rendered fields). -/
structure Movie where
  id : Nat
  title : String
deriving DecidableEq

/-- One document of the remote store: `users/{uid}/favorites/{key}` holding
a movie value. -/
structure RemoteDoc where
  uid : String
  key : String
  data : Movie
deriving DecidableEq

/-- The remote document store, flat list of documents. -/
abbrev RemoteDB := List RemoteDoc

/-- Read one document (`getDoc`): the first document matching the user id
and document key, if any. -/
def getDocF : RemoteDB → String → String → Option Movie
  | [], _, _ => none
  | d :: rest, uid, key =>
      if d.uid = uid ∧ d.key = key then some d.data else getDocF rest uid key

/-- Write one document (`setDoc`): upsert under (user id, document key). -/
def setDocF : RemoteDB → String → String → Movie → RemoteDB
  | [], uid, key, m => [⟨uid, key, m⟩]
  | d :: rest, uid, key, m =>
      if d.uid = uid ∧ d.key = key then ⟨uid, key, m⟩ :: rest
      else d :: setDocF rest uid key m

/-- Delete one document (`deleteDoc`): remove every document under
(user id, document key); deleting an absent document is accepted. -/
def deleteDocF : RemoteDB → String → String → RemoteDB
  | [], _, _ => []
  | d :: rest, uid, key =>
      if d.uid = uid ∧ d.key = key then deleteDocF rest uid key
      else d :: deleteDocF rest uid key

/-- The data carried by a collection snapshot for one user: the list of the
documents of that user, in store order. -/
def collDocs : RemoteDB → String → List Movie
  | [], _ => []
  | d :: rest, uid =>
      if d.uid = uid then d.data :: collDocs rest uid else collDocs rest uid

/-- Number of documents stored under (user id, document key). -/
def countDocs (db : RemoteDB) (uid key : String) : Nat :=
  db.countP (fun d => decide (d.uid = uid ∧ d.key = key))

/-- The migration batch of the auth-state handler: for each locally stored
movie, the existence check `getDoc` runs against the store as it was when
the handler started (`orig`); the batched `set` operations are then applied
in order by `batch.commit`. -/
def commitMigration (orig : RemoteDB) (uid : String) : List Movie → RemoteDB → RemoteDB
  | [], db => db
  | m :: rest, db =>
      commitMigration orig uid rest
        (if getDocF orig uid (toString m.id) = none
         then setDocF db uid (toString m.id) m
         else db)

/-- The state of the favorites reconciliation core.  `localStore` is the
parsed value of the local-storage key "favourites" (`none` when the key is
absent); `sessionDismissed` is the session-scoped dismissal flag (ref plus
session storage). -/
structure AppState where
  favourites : List Movie
  currentUser : Option String
  isFavoritesLoading : Bool
  showSignInPrompt : Bool
  sessionDismissed : Bool
  localStore : Option (List Movie)
  remote : RemoteDB
deriving DecidableEq

/-- Result of running one handler: the new state, whether an error escaped
the handler uncaught (an unhandled promise rejection), and whether a catch
block of the core logged an error. -/
structure StepResult where
  state : AppState
  uncaught : Bool
  logged : Bool
deriving DecidableEq

/-- Attaching the `onSnapshot` listener to the user's favorites collection:
on success the first snapshot replaces the in-memory list wholesale with
the collection contents; on error the error callback logs and resets the
list to empty. -/
def attachListener (subFail : Bool) (s : AppState) (uid : String) : StepResult :=
  if subFail then
    { state := { s with favourites := [], isFavoritesLoading := false },
      uncaught := false, logged := true }
  else
    { state := { s with favourites := collDocs s.remote uid, isFavoritesLoading := false },
      uncaught := false, logged := false }

/-- The `onAuthStateChanged` callback.  `migFail` injects a rejection of a
migration `getDoc` or of `batch.commit`; these run inside the async handler
with no try/catch, so such a rejection escapes uncaught, local storage is
not cleared and no listener is attached.  `subFail` injects a listener
error, which the error callback catches. -/
def handleAuthChange (migFail subFail : Bool) (s : AppState) (user : Option String) :
    StepResult :=
  let s1 := { s with currentUser := user, isFavoritesLoading := true,
                     showSignInPrompt := false }
  match user with
  | some uid =>
      match s1.localStore with
      | some localFavs =>
          if localFavs.length > 0 then
            if migFail then
              { state := s1, uncaught := true, logged := false }
            else
              let s2 := { s1 with
                remote := commitMigration s1.remote uid localFavs s1.remote,
                localStore := none }
              attachListener subFail s2 uid
          else attachListener subFail s1 uid
      | none => attachListener subFail s1 uid
  | none =>
      { state := { s1 with favourites := s1.localStore.getD [],
                           isFavoritesLoading := false },
        uncaught := false, logged := false }

/-- `addToFavourites`.  Authenticated: upsert the movie under key
`String(movie.id)`; a remote failure is caught and logged, leaving state
unchanged; on success the snapshot listener replaces the in-memory list.
Anonymous: skip when the id is already present, otherwise append, persist
the whole list to local storage, and surface the sign-in prompt unless the
session-scoped dismissal flag is set. -/
def addToFavourites (fail : Bool) (s : AppState) (m : Movie) : StepResult :=
  match s.currentUser with
  | some uid =>
      if fail then { state := s, uncaught := false, logged := true }
      else
        let db2 := setDocF s.remote uid (toString m.id) m
        { state := { s with remote := db2, favourites := collDocs db2 uid },
          uncaught := false, logged := false }
  | none =>
      if s.favourites.any (fun fm => fm.id == m.id) then
        { state := s, uncaught := false, logged := false }
      else
        let newFavs := s.favourites ++ [m]
        let s2 := { s with favourites := newFavs, localStore := some newFavs }
        let s3 := if s.sessionDismissed then s2 else { s2 with showSignInPrompt := true }
        { state := s3, uncaught := false, logged := false }

/-- `removeFromFavourites`.  Authenticated: delete the document under key
`String(movieId)`; a remote failure is caught and logged.  Anonymous:
filter the id out of the list and persist the filtered list to local
storage unconditionally. -/
def removeFromFavourites (fail : Bool) (s : AppState) (movieId : Nat) : StepResult :=
  match s.currentUser with
  | some uid =>
      if fail then { state := s, uncaught := false, logged := true }
      else
        let db2 := deleteDocF s.remote uid (toString movieId)
        { state := { s with remote := db2, favourites := collDocs db2 uid },
          uncaught := false, logged := false }
  | none =>
      let newFavs := s.favourites.filter (fun mv => mv.id != movieId)
      { state := { s with favourites := newFavs, localStore := some newFavs },
        uncaught := false, logged := false }

/-- `isFavourite`: membership check against the current in-memory list. -/
def isFavourite (s : AppState) (movieId : Nat) : Bool :=
  s.favourites.any (fun m => m.id == movieId)

/-- `dismissSignInPromptForSession`: hide the prompt and set the
session-scoped dismissal flag (ref and session storage). -/
def dismissSignInPromptForSession (s : AppState) : AppState :=
  { s with showSignInPrompt := false, sessionDismissed := true }

/-- The events the core reacts to, happy path (no injected failures). -/
inductive Event where
  | authChange (user : Option String)
  | add (m : Movie)
  | remove (movieId : Nat)
  | dismiss
deriving DecidableEq

/-- Happy-path transition of the core on one event. -/
def step (s : AppState) (e : Event) : AppState :=
  match e with
  | .authChange u => (handleAuthChange false false s u).state
  | .add m => (addToFavourites false s m).state
  | .remove i => (removeFromFavourites false s i).state
  | .dismiss => dismissSignInPromptForSession s

/-- Happy-path run over a list of events. -/
def run (s : AppState) (es : List Event) : AppState :=
  es.foldl step s

/-- The contents of the backing store selected by the current session:
the remote collection while authenticated, the parsed local-storage list
while anonymous. -/
def activeList (s : AppState) : List Movie :=
  match s.currentUser with
  | some uid => collDocs s.remote uid
  | none => s.localStore.getD []

/-- The single-source invariant: the in-memory list equals the contents of
the one backing store selected by the session. -/
def StoreInv (s : AppState) : Prop :=
  s.favourites = activeList s

/-- Number of entries of an in-memory favourites list carrying a given
movie id. -/
def countId (l : List Movie) (movieId : Nat) : Nat :=
  l.countP (fun m => m.id == movieId)

/-!
The remote metadata gateway (`services/api.js`).  Each operation performs a
single request with no retry and no cache; we model the one HTTP exchange
by passing the response — status line plus raw body text plus the parsed
JSON payload — as an explicit argument, so each operation is a pure
request/parse/error-wrap function of its response.
-/

/-- An HTTP response from the catalog API: success flag, status code, raw
body text, and the JSON payload it parses to. -/
structure TmdbResponse (α : Type) where
  ok : Bool
  status : Nat
  bodyText : String
  payload : α

/-- The payload of the popular listing and of genre discovery:
page, results, total_pages, total_results. -/
structure PopularPayload where
  page : Nat
  results : List Movie
  total_pages : Nat
  total_results : Nat
deriving DecidableEq

/-- A payload whose `results` field carries a movie list (search, similar). -/
structure SearchPayload where
  results : List Movie
deriving DecidableEq

/-- The movie-details payload (opaque to the gateway, returned whole). -/
structure DetailsPayload where
  movie : Movie
deriving DecidableEq

/-- A watch-providers entry for one region. -/
structure ProviderRegion where
  link : String
deriving DecidableEq

/-- The watch-providers payload: an optional map from region code to the
region's providers. -/
structure WatchProvidersPayload where
  results : Option (List (String × ProviderRegion))
deriving DecidableEq

/-- A genre descriptor. -/
structure GenreInfo where
  id : Nat
  name : String
deriving DecidableEq

/-- The genre-list payload. -/
structure GenreListPayload where
  genres : List GenreInfo
deriving DecidableEq

/-- Region lookup inside the watch-providers payload. -/
def lookupRegion : List (String × ProviderRegion) → String → Option ProviderRegion
  | [], _ => none
  | p :: rest, region => if p.1 = region then some p.2 else lookupRegion rest region

/-- `getPopularMovies(page)`: full payload on success. -/
def getPopularMovies (page : Nat) (resp : TmdbResponse PopularPayload) :
    Except String PopularPayload :=
  if resp.ok then .ok resp.payload
  else .error ("HTTP error! Status: " ++ toString resp.status ++ ", Message: " ++
    resp.bodyText ++ " for page " ++ toString page)

/-- `searchMovies(query)`: the `results` field on success. -/
def searchMovies (query : String) (resp : TmdbResponse SearchPayload) :
    Except String (List Movie) :=
  if resp.ok then .ok resp.payload.results
  else .error ("HTTP error! Status: " ++ toString resp.status ++ ", Message: " ++
    resp.bodyText)

/-- `getMovieDetails(movieId)`: full payload on success. -/
def getMovieDetails (movieId : Nat) (resp : TmdbResponse DetailsPayload) :
    Except String DetailsPayload :=
  if resp.ok then .ok resp.payload
  else .error ("Error fetching movie details for ID " ++ toString movieId ++
    ": HTTP status " ++ toString resp.status ++ ", Message: " ++ resp.bodyText)

/-- `getSimilarMovies(movieId)`: the `results` field on success. -/
def getSimilarMovies (movieId : Nat) (resp : TmdbResponse SearchPayload) :
    Except String (List Movie) :=
  if resp.ok then .ok resp.payload.results
  else .error ("Error fetching similar movies for ID " ++ toString movieId ++
    ": HTTP status " ++ toString resp.status ++ ", Message: " ++ resp.bodyText)

/-- `getMovieWatchProviders(movieId, region)`: on success,
`data.results ? data.results[region] : undefined`. -/
def getMovieWatchProviders (movieId : Nat) (region : String)
    (resp : TmdbResponse WatchProvidersPayload) : Except String (Option ProviderRegion) :=
  if resp.ok then
    .ok (match resp.payload.results with
         | some rs => lookupRegion rs region
         | none => none)
  else .error ("Error fetching watch providers for ID " ++ toString movieId ++
    ": HTTP status " ++ toString resp.status ++ ", Message: " ++ resp.bodyText)

/-- `getMovieGenres()`: the `genres` field on success. -/
def getMovieGenres (resp : TmdbResponse GenreListPayload) :
    Except String (List GenreInfo) :=
  if resp.ok then .ok resp.payload.genres
  else .error ("HTTP error! Status: " ++ toString resp.status ++ ", Message: " ++
    resp.bodyText)

/-- `getMoviesByGenres(genreIds, page)`: full payload on success. -/
def getMoviesByGenres (genreIds : List Nat) (page : Nat)
    (resp : TmdbResponse PopularPayload) : Except String PopularPayload :=
  if resp.ok then .ok resp.payload
  else .error ("HTTP error! Status: " ++ toString resp.status ++ ", Message: " ++
    resp.bodyText)

/-!
The delete-account flow of the account page (`confirmDeleteAction`): it
first reads every document of the signed-in user's favorites collection and
deletes them in one batch, and only then asks the identity provider to
delete the identity record.  The provider's verdict on the identity
deletion is passed as an explicit outcome.
-/

/-- State visible to the account page: the signed-in user, the registered
identity records, the remote store, and the two message slots of the form. -/
structure AccountState where
  currentUser : Option String
  identities : List String
  remote : RemoteDB
  authError : String
  feedbackMessage : String
deriving DecidableEq

/-- The identity provider's verdict on `deleteUser`. -/
inductive DeleteUserResult where
  | success
  | requiresRecentLogin
  | otherError (msg : String)
deriving DecidableEq

/-- The batched deletion of every document of one user's favorites
collection (`getDocs` followed by `batch.delete` on each and one commit). -/
def deleteUserDocs : RemoteDB → String → RemoteDB
  | [], _ => []
  | d :: rest, uid =>
      if d.uid = uid then deleteUserDocs rest uid else d :: deleteUserDocs rest uid

/-- `confirmDeleteAction`: delete all favorites documents of the signed-in
user, then delete the identity record; `auth/requires-recent-login` is
special-cased into a retryable message asking the user to re-authenticate,
every other failure into the generic failure message. -/
def confirmDeleteAction (st : AccountState) (uid : String) (res : DeleteUserResult) :
    AccountState :=
  let st1 := { st with authError := "", feedbackMessage := "Deleting account...",
                       remote := deleteUserDocs st.remote uid }
  match res with
  | .success =>
      { st1 with
        identities := st1.identities.filter (fun u => u != uid),
        currentUser := none,
        feedbackMessage :=
          "Your account has been successfully deleted. You have been logged out." }
  | .requiresRecentLogin =>
      { st1 with
        authError :=
          "Please sign in again recently to delete your account. (Sign out and sign back in, then try again).",
        feedbackMessage := "" }
  | .otherError msg =>
      { st1 with authError := "Failed to delete account: " ++ msg,
                 feedbackMessage := "" }

/-! ### Invariant lemmas -/

theorem attachListener_inv (s : AppState) (uid : String) (f : Bool)
    (hu : s.currentUser = some uid) :
    StoreInv (attachListener false s uid).state ∧
    (attachListener f s uid).uncaught = false := by
  constructor
  · simp [attachListener, StoreInv, activeList, hu]
  · cases f <;> simp [attachListener]

theorem storeInv_authChange (s : AppState) (u : Option String) :
    StoreInv (step s (.authChange u)) := by
  cases u with
  | none => simp [step, handleAuthChange, StoreInv, activeList]
  | some uid =>
      simp only [step, handleAuthChange]
      cases hls : s.localStore with
      | none =>
          have := attachListener_inv
            { s with currentUser := some uid, isFavoritesLoading := true,
                     showSignInPrompt := false } uid false rfl
          simpa [hls] using this.1
      | some l =>
          by_cases hlen : l.length > 0
          · have := attachListener_inv
              { s with currentUser := some uid, isFavoritesLoading := true,
                       showSignInPrompt := false,
                       remote := commitMigration s.remote uid l s.remote,
                       localStore := none } uid false rfl
            simpa [hls, hlen] using this.1
          · have := attachListener_inv
              { s with currentUser := some uid, isFavoritesLoading := true,
                       showSignInPrompt := false } uid false rfl
            simpa [hls, hlen] using this.1

theorem storeInv_step (s : AppState) (e : Event) (h : StoreInv s) :
    StoreInv (step s e) := by
  cases e with
  | authChange u => exact storeInv_authChange s u
  | add m =>
      cases hcu : s.currentUser with
      | some uid =>
          simp [step, addToFavourites, hcu, StoreInv, activeList]
      | none =>
          by_cases hmem : s.favourites.any (fun fm => fm.id == m.id)
          · simpa [step, addToFavourites, hcu, hmem] using h
          · by_cases hd : s.sessionDismissed <;>
              simp [step, addToFavourites, hcu, hmem, hd, StoreInv, activeList]
  | remove i =>
      cases hcu : s.currentUser with
      | some uid => simp [step, removeFromFavourites, hcu, StoreInv, activeList]
      | none => simp [step, removeFromFavourites, hcu, StoreInv, activeList]
  | dismiss =>
      simp only [step, dismissSignInPromptForSession]
      cases hcu : s.currentUser with
      | some uid =>
          have := h
          simp [StoreInv, activeList, hcu] at this ⊢
          exact this
      | none =>
          have := h
          simp [StoreInv, activeList, hcu] at this ⊢
          exact this

theorem storeInv_run (s : AppState) (es : List Event) (h : StoreInv s) :
    StoreInv (run s es) := by
  induction es generalizing s with
  | nil => exact h
  | cons e es ih => exact ih _ (storeInv_step s e h)

theorem authChange_prompt_fields (s : AppState) (u : Option String) :
    (step s (.authChange u)).showSignInPrompt = false ∧
    (step s (.authChange u)).sessionDismissed = s.sessionDismissed := by
  cases u with
  | none => simp [step, handleAuthChange]
  | some uid =>
      simp only [step, handleAuthChange]
      cases hls : s.localStore with
      | none => simp [attachListener]
      | some l =>
          by_cases hlen : l.length > 0 <;> simp [hlen, attachListener]

theorem dismissed_stays_step (s : AppState) (e : Event)
    (hd : s.sessionDismissed = true) (hp : s.showSignInPrompt = false) :
    (step s e).sessionDismissed = true ∧ (step s e).showSignInPrompt = false := by
  cases e with
  | authChange u =>
      have h := authChange_prompt_fields s u
      exact ⟨h.2.trans hd, h.1⟩
  | add m =>
      cases hcu : s.currentUser with
      | some uid => simp [step, addToFavourites, hcu, hd, hp]
      | none =>
          by_cases hmem : s.favourites.any (fun fm => fm.id == m.id) <;>
            simp [step, addToFavourites, hcu, hmem, hd, hp]
  | remove i =>
      cases hcu : s.currentUser with
      | some uid => simp [step, removeFromFavourites, hcu, hd, hp]
      | none => simp [step, removeFromFavourites, hcu, hd, hp]
  | dismiss => simp [step, dismissSignInPromptForSession]

theorem dismissed_stays_run (s : AppState) (es : List Event)
    (hd : s.sessionDismissed = true) (hp : s.showSignInPrompt = false) :
    (run s es).sessionDismissed = true ∧ (run s es).showSignInPrompt = false := by
  induction es generalizing s with
  | nil => exact ⟨hd, hp⟩
  | cons e es ih =>
      have h := dismissed_stays_step s e hd hp
      exact ih _ h.1 h.2

/-! ### Claim theorems -/

/-- C2: at every state reachable after the initial auth-state notification,
the in-memory favourites list equals the contents of exactly the one
backing store selected by the session (the remote collection snapshot while
authenticated, the parsed local-storage list while anonymous), and
`isFavourite` is a membership check against that single store. -/
theorem favourites_single_source (s0 : AppState) (u : Option String)
    (es : List Event) (mid : Nat) :
    StoreInv (run (step s0 (.authChange u)) es) ∧
    isFavourite (run (step s0 (.authChange u)) es) mid =
      (activeList (run (step s0 (.authChange u)) es)).any (fun mv => mv.id == mid) := by
  have h := storeInv_run _ es (storeInv_authChange s0 u)
  refine ⟨h, ?_⟩
  unfold isFavourite
  rw [h]

/-- C5: on sign-out no migration of any kind runs — local storage and the
remote store are untouched — and the in-memory favourites list becomes
exactly the parsed local-storage contents (empty when the key is absent),
so `isFavourite` afterwards holds only for ids present in local storage. -/
theorem signout_restores_local (s : AppState) (mid : Nat) :
    (step s (.authChange none)).favourites = s.localStore.getD [] ∧
    (step s (.authChange none)).localStore = s.localStore ∧
    (step s (.authChange none)).remote = s.remote ∧
    (isFavourite (step s (.authChange none)) mid = true ↔
      ∃ m ∈ s.localStore.getD [], m.id = mid) := by
  refine ⟨by simp [step, handleAuthChange], by simp [step, handleAuthChange],
    by simp [step, handleAuthChange], ?_⟩
  simp [step, handleAuthChange, isFavourite, List.any_eq_true]

/-- C6: once the sign-in prompt is dismissed, the session-scoped dismissal
flag stays set for the rest of the session and no subsequent sequence of
events — in particular no anonymous add — ever re-shows the prompt. -/
theorem prompt_dismiss_single_shot (s : AppState) (es : List Event) :
    (run (dismissSignInPromptForSession s) es).sessionDismissed = true ∧
    (run (dismissSignInPromptForSession s) es).showSignInPrompt = false :=
  dismissed_stays_run _ es rfl rfl

/-! ### Remote-store lemmas -/

theorem getDoc_setDoc_self (db : RemoteDB) (uid key : String) (m : Movie) :
    getDocF (setDocF db uid key m) uid key = some m := by
  induction db with
  | nil => simp [setDocF, getDocF]
  | cons d rest ih =>
      by_cases h : d.uid = uid ∧ d.key = key
      · simp [setDocF, h, getDocF]
      · simp [setDocF, h, getDocF, ih]

theorem getDoc_setDoc_ne (db : RemoteDB) (uid key uid2 key2 : String) (m : Movie)
    (h : ¬(uid2 = uid ∧ key2 = key)) :
    getDocF (setDocF db uid key m) uid2 key2 = getDocF db uid2 key2 := by
  induction db with
  | nil =>
      have h2 : ¬(uid = uid2 ∧ key = key2) := by
        intro hc
        exact h ⟨hc.1.symm, hc.2.symm⟩
      simp [setDocF, getDocF, h2]
  | cons d rest ih =>
      by_cases hd : d.uid = uid ∧ d.key = key
      · have h2 : ¬(uid = uid2 ∧ key = key2) := by
          intro hc
          exact h ⟨hc.1.symm, hc.2.symm⟩
        have hd2 : ¬(d.uid = uid2 ∧ d.key = key2) := by
          intro hc
          exact h2 ⟨hd.1 ▸ hc.1, hd.2 ▸ hc.2⟩
        simp [setDocF, hd, getDocF, h2, hd2]
      · by_cases hd2 : d.uid = uid2 ∧ d.key = key2
        · simp [setDocF, hd, getDocF, hd2, h]
        · simp [setDocF, hd, getDocF, hd2, h, ih]

theorem deleteDoc_absent (db : RemoteDB) (uid key : String)
    (h : getDocF db uid key = none) : deleteDocF db uid key = db := by
  induction db with
  | nil => simp [deleteDocF]
  | cons d rest ih =>
      by_cases hd : d.uid = uid ∧ d.key = key
      · simp [getDocF, hd] at h
      · simp [getDocF, hd] at h
        simp [deleteDocF, hd, ih h]

theorem commitMigration_untouched (orig : RemoteDB) (uid : String) (ls : List Movie)
    (db : RemoteDB) (uid2 key2 : String)
    (hk : ∀ m ∈ ls, ¬(uid2 = uid ∧ key2 = toString m.id)) :
    getDocF (commitMigration orig uid ls db) uid2 key2 = getDocF db uid2 key2 := by
  induction ls generalizing db with
  | nil => simp [commitMigration]
  | cons m rest ih =>
      simp only [commitMigration]
      rw [ih _ (fun m2 hm2 => hk m2 (List.mem_cons_of_mem m hm2))]
      by_cases hg : getDocF orig uid (toString m.id) = none
      · simp only [hg, if_pos rfl]
        exact getDoc_setDoc_ne db uid (toString m.id) uid2 key2 m
          (hk m (List.mem_cons_self m rest))
      · simp [hg]

theorem commitMigration_existing (orig : RemoteDB) (uid : String) (ls : List Movie)
    (db : RemoteDB) (uid2 key2 : String)
    (h : uid2 = uid → getDocF orig uid key2 ≠ none) :
    getDocF (commitMigration orig uid ls db) uid2 key2 = getDocF db uid2 key2 := by
  induction ls generalizing db with
  | nil => simp [commitMigration]
  | cons m rest ih =>
      simp only [commitMigration]
      rw [ih]
      by_cases hg : getDocF orig uid (toString m.id) = none
      · simp only [hg, if_pos rfl]
        refine getDoc_setDoc_ne db uid (toString m.id) uid2 key2 m ?_
        intro hc
        exact h hc.1 (hc.2 ▸ hg)
      · simp [hg]

theorem commitMigration_writes (orig : RemoteDB) (uid : String) (ls : List Movie)
    (db : RemoteDB) (m : Movie)
    (hm : m ∈ ls)
    (habs : getDocF orig uid (toString m.id) = none)
    (hnd : (ls.map (fun mv => toString mv.id)).Nodup) :
    getDocF (commitMigration orig uid ls db) uid (toString m.id) = some m := by
  induction ls generalizing db with
  | nil => simp at hm
  | cons m0 rest ih =>
      rcases List.mem_cons.mp hm with hm0 | hmr
      · subst hm0
        simp only [commitMigration, habs, if_pos rfl]
        have hnotin : ∀ m2 ∈ rest, ¬(uid = uid ∧ toString m.id = toString m2.id) := by
          intro m2 hm2 hc
          have : toString m.id ∈ rest.map (fun mv => toString mv.id) :=
            hc.2 ▸ List.mem_map_of_mem (fun mv => toString mv.id) hm2
          exact (List.nodup_cons.mp (by simpa using hnd)).1 this
        rw [commitMigration_untouched orig uid rest _ uid (toString m.id) hnotin]
        exact getDoc_setDoc_self db uid (toString m.id) m
      · simp only [commitMigration]
        exact ih _ hmr (List.nodup_cons.mp (by simpa using hnd)).2

theorem authChange_migrates (s : AppState) (uid : String) (l : List Movie)
    (hl : s.localStore = some l) (hlen : l.length > 0) :
    (step s (.authChange (some uid))).remote = commitMigration s.remote uid l s.remote ∧
    (step s (.authChange (some uid))).localStore = none ∧
    (step s (.authChange (some uid))).favourites =
      collDocs (commitMigration s.remote uid l s.remote) uid := by
  simp [step, handleAuthChange, hl, hlen, attachListener]

/-- C1: on the Anonymous→Authenticated transition with a non-empty local
favourites list, every locally stored movie whose id key is absent from the
user's remote collection is written there (keeping existing remote
documents untouched), nothing else appears in that collection, and local
storage is cleared afterwards. -/
theorem signin_migration_correct (s : AppState) (uid : String) (l : List Movie)
    (hanon : s.currentUser = none)
    (hl : s.localStore = some l) (hne : l ≠ [])
    (hnd : (l.map (fun mv => toString mv.id)).Nodup) :
    (∀ m ∈ l, getDocF s.remote uid (toString m.id) = none →
        getDocF (step s (.authChange (some uid))).remote uid (toString m.id) = some m) ∧
    (∀ key, getDocF s.remote uid key ≠ none →
        getDocF (step s (.authChange (some uid))).remote uid key =
          getDocF s.remote uid key) ∧
    (∀ key, getDocF (step s (.authChange (some uid))).remote uid key ≠ none →
        getDocF s.remote uid key ≠ none ∨ ∃ m ∈ l, key = toString m.id) ∧
    (step s (.authChange (some uid))).localStore = none := by
  have hlen : l.length > 0 := List.length_pos.mpr hne
  obtain ⟨hrem, hloc, -⟩ := authChange_migrates s uid l hl hlen
  refine ⟨?_, ?_, ?_, hloc⟩
  · intro m hm habs
    rw [hrem]
    exact commitMigration_writes s.remote uid l s.remote m hm habs hnd
  · intro key hk
    rw [hrem]
    exact commitMigration_existing s.remote uid l s.remote uid key (fun _ => hk)
  · intro key hk
    by_cases hex : getDocF s.remote uid key = none
    · right
      by_cases hmem : ∃ m ∈ l, key = toString m.id
      · exact hmem
      · exfalso
        rw [hrem, commitMigration_untouched s.remote uid l s.remote uid key
          (fun m hm hc => hmem ⟨m, hm, hc.2⟩)] at hk
        exact hk hex
    · exact Or.inl hex

theorem signin_migration_correct_witness :
    getDocF
      (step { favourites := [⟨1, "A"⟩, ⟨2, "B"⟩], currentUser := none,
              isFavoritesLoading := false, showSignInPrompt := false,
              sessionDismissed := false, localStore := some [⟨1, "A"⟩, ⟨2, "B"⟩],
              remote := [⟨"u", "2", ⟨2, "B"⟩⟩] } (.authChange (some "u"))).remote
      "u" (toString (1 : Nat)) = some ⟨1, "A"⟩ ∧
    (step { favourites := [⟨1, "A"⟩, ⟨2, "B"⟩], currentUser := none,
            isFavoritesLoading := false, showSignInPrompt := false,
            sessionDismissed := false, localStore := some [⟨1, "A"⟩, ⟨2, "B"⟩],
            remote := [⟨"u", "2", ⟨2, "B"⟩⟩] } (.authChange (some "u"))).localStore =
      none := by
  have h := signin_migration_correct
    { favourites := [⟨1, "A"⟩, ⟨2, "B"⟩], currentUser := none,
      isFavoritesLoading := false, showSignInPrompt := false,
      sessionDismissed := false, localStore := some [⟨1, "A"⟩, ⟨2, "B"⟩],
      remote := [⟨"u", "2", ⟨2, "B"⟩⟩] } "u" [⟨1, "A"⟩, ⟨2, "B"⟩]
    rfl rfl (by decide) (by decide)
  exact ⟨h.1 ⟨1, "A"⟩ (by decide) (by decide), h.2.2.2⟩

/-! ### Idempotence lemmas -/

theorem countDocs_setDoc (db : RemoteDB) (uid key : String) (m : Movie)
    (h : countDocs db uid key ≤ 1) :
    countDocs (setDocF db uid key m) uid key = 1 := by
  induction db with
  | nil => simp [setDocF, countDocs]
  | cons d rest ih =>
      by_cases hd : d.uid = uid ∧ d.key = key
      · have hcnt : countDocs (d :: rest) uid key = countDocs rest uid key + 1 := by
          simp [countDocs, List.countP_cons, hd]
        rw [hcnt] at h
        have hrest : countDocs rest uid key = 0 := by omega
        have hr2 : List.countP (fun x => decide (x.uid = uid ∧ x.key = key)) rest = 0 :=
          hrest
        have hset : setDocF (d :: rest) uid key m = ⟨uid, key, m⟩ :: rest := by
          simp [setDocF, hd]
        rw [hset]
        simp only [countDocs, List.countP_cons]
        rw [hr2]
        simp
      · have hle : countDocs rest uid key ≤ 1 := by
          simpa [countDocs, List.countP_cons, hd] using h
        have hset : setDocF (d :: rest) uid key m = d :: setDocF rest uid key m := by
          simp [setDocF, hd]
        rw [hset]
        simpa [countDocs, List.countP_cons, hd] using ih hle

theorem countId_append_one (l : List Movie) (m : Movie) :
    countId (l ++ [m]) m.id = countId l m.id + 1 := by
  simp [countId, List.countP_append]

theorem countId_of_any_false (l : List Movie) (mid : Nat)
    (h : l.any (fun fm => fm.id == mid) = false) : countId l mid = 0 := by
  rw [countId, List.countP_eq_zero]
  intro m hm
  exact List.any_eq_false.mp h m hm

theorem countId_of_any_true (l : List Movie) (mid : Nat)
    (h : l.any (fun fm => fm.id == mid) = true) : 1 ≤ countId l mid := by
  rw [countId]
  obtain ⟨m, hm, hp⟩ := List.any_eq_true.mp h
  exact Nat.succ_le_of_lt (List.countP_pos_iff.mpr ⟨m, hm, hp⟩)

theorem add_anon_skip (s : AppState) (m : Movie) (hcu : s.currentUser = none)
    (hmem : s.favourites.any (fun fm => fm.id == m.id) = true) :
    step s (.add m) = s := by
  simp [step, addToFavourites, hcu, hmem]

theorem add_anon_app (s : AppState) (m : Movie) (hcu : s.currentUser = none)
    (hmem : s.favourites.any (fun fm => fm.id == m.id) = false) :
    (step s (.add m)).favourites = s.favourites ++ [m] ∧
    (step s (.add m)).localStore = some (s.favourites ++ [m]) ∧
    (step s (.add m)).currentUser = none := by
  by_cases hd : s.sessionDismissed <;> simp [step, addToFavourites, hcu, hmem, hd]

theorem add_auth_proj (s : AppState) (uid : String) (m : Movie)
    (hcu : s.currentUser = some uid) :
    (step s (.add m)).remote = setDocF s.remote uid (toString m.id) m ∧
    (step s (.add m)).currentUser = some uid := by
  simp [step, addToFavourites, hcu]

/-- C4: adding the same movie twice leaves exactly one favorites entry
keyed by its id — in anonymous mode one entry of the in-memory (and hence
persisted) list, in authenticated mode one remote document under key
`String(m.id)` — and no add call ever raises an uncaught error. -/
theorem add_idempotent (s : AppState) (m : Movie) :
    (s.currentUser = none → countId s.favourites m.id ≤ 1 →
        countId (step (step s (.add m)) (.add m)).favourites m.id = 1) ∧
    (∀ uid, s.currentUser = some uid →
        countDocs s.remote uid (toString m.id) ≤ 1 →
        countDocs (step (step s (.add m)) (.add m)).remote uid (toString m.id) = 1) ∧
    (∀ fail s2, (addToFavourites fail s2 m).uncaught = false) := by
  refine ⟨?_, ?_, ?_⟩
  · intro hcu hcnt
    by_cases hmem : s.favourites.any (fun fm => fm.id == m.id) = true
    · rw [add_anon_skip s m hcu hmem, add_anon_skip s m hcu hmem]
      have h1 := countId_of_any_true s.favourites m.id hmem
      omega
    · have hmem2 : s.favourites.any (fun fm => fm.id == m.id) = false :=
        Bool.eq_false_iff.mpr hmem
      obtain ⟨hf1, hl1, hc1⟩ := add_anon_app s m hcu hmem2
      have hany2 : (step s (.add m)).favourites.any (fun fm => fm.id == m.id) = true := by
        rw [hf1]
        simp
      rw [add_anon_skip _ m hc1 hany2, hf1, countId_append_one,
          countId_of_any_false s.favourites m.id hmem2]
  · intro uid hcu hcnt
    obtain ⟨hr1, hc1⟩ := add_auth_proj s uid m hcu
    obtain ⟨hr2, hc2⟩ := add_auth_proj (step s (.add m)) uid m hc1
    rw [hr2, hr1]
    exact countDocs_setDoc _ uid _ m
      (le_of_eq (countDocs_setDoc s.remote uid _ m hcnt))
  · intro fail s2
    cases hcu : s2.currentUser with
    | some uid => cases fail <;> simp [addToFavourites, hcu]
    | none =>
        by_cases hmem : s2.favourites.any (fun fm => fm.id == m.id) <;>
          by_cases hd : s2.sessionDismissed <;>
            simp [addToFavourites, hcu, hmem, hd]

theorem add_idempotent_witness :
    countId
      (step (step { favourites := [], currentUser := none,
                    isFavoritesLoading := false, showSignInPrompt := false,
                    sessionDismissed := false, localStore := none, remote := [] }
        (.add ⟨5, "X"⟩)) (.add ⟨5, "X"⟩)).favourites 5 = 1 ∧
    countDocs
      (step (step { favourites := [], currentUser := some "u",
                    isFavoritesLoading := false, showSignInPrompt := false,
                    sessionDismissed := false, localStore := none, remote := [] }
        (.add ⟨5, "X"⟩)) (.add ⟨5, "X"⟩)).remote "u" (toString (5 : Nat)) = 1 := by
  constructor
  · exact (add_idempotent
      { favourites := [], currentUser := none, isFavoritesLoading := false,
        showSignInPrompt := false, sessionDismissed := false, localStore := none,
        remote := [] } ⟨5, "X"⟩).1 rfl (by decide)
  · exact (add_idempotent
      { favourites := [], currentUser := some "u", isFavoritesLoading := false,
        showSignInPrompt := false, sessionDismissed := false, localStore := none,
        remote := [] } ⟨5, "X"⟩).2.1 "u" rfl (by decide)

/-! ### Removal and anonymous-persistence properties -/

/-- C7 counterexample: from a freshly loaded anonymous state whose
local-storage key is absent, removing an id that is not in the active store
still rewrites local storage (creating the key with the empty list), so the
state does not stay unchanged as claimed. -/
theorem remove_absent_rewrites_local_store :
    isFavourite
      { favourites := [], currentUser := none, isFavoritesLoading := false,
        showSignInPrompt := false, sessionDismissed := false,
        localStore := none, remote := [] } 7 = false ∧
    (step { favourites := [], currentUser := none, isFavoritesLoading := false,
            showSignInPrompt := false, sessionDismissed := false,
            localStore := none, remote := [] } (.remove 7)).localStore ≠
      ({ favourites := [], currentUser := none, isFavoritesLoading := false,
         showSignInPrompt := false, sessionDismissed := false,
         localStore := none, remote := [] } : AppState).localStore := by
  decide

/-- C7 amended: removing an id not present in the active store leaves the
favourites list and the stores unchanged and raises no error — except that
in anonymous mode the local-storage key is rewritten with the unchanged
list (created when it was absent); in authenticated mode the whole state is
literally unchanged. -/
theorem remove_absent_noop_amended (s : AppState) (mid : Nat) (uid : String)
    (hinv : StoreInv s) :
    (s.currentUser = some uid → getDocF s.remote uid (toString mid) = none →
        step s (.remove mid) = s) ∧
    (s.currentUser = none → s.favourites.any (fun mv => mv.id == mid) = false →
        (step s (.remove mid)).favourites = s.favourites ∧
        (step s (.remove mid)).localStore = some s.favourites ∧
        (step s (.remove mid)).remote = s.remote ∧
        (step s (.remove mid)).currentUser = none) ∧
    (∀ fail, (removeFromFavourites fail s mid).uncaught = false) := by
  refine ⟨?_, ?_, ?_⟩
  · intro hcu habs
    have hfav : s.favourites = collDocs s.remote uid := by
      simpa [StoreInv, activeList, hcu] using hinv
    simp [step, removeFromFavourites, hcu, deleteDoc_absent s.remote uid _ habs, ← hfav]
    rw [← hcu]
  · intro hcu hmem
    have hfil : s.favourites.filter (fun mv => mv.id != mid) = s.favourites := by
      rw [List.filter_eq_self]
      intro a ha
      have := List.any_eq_false.mp hmem a ha
      simpa [bne] using this
    simp [step, removeFromFavourites, hcu, hfil]
  · intro fail
    cases hcu : s.currentUser with
    | some uid2 => cases fail <;> simp [removeFromFavourites, hcu]
    | none => simp [removeFromFavourites, hcu]

theorem remove_absent_noop_amended_witness :
    step { favourites := [⟨2, "B"⟩], currentUser := some "u",
           isFavoritesLoading := false, showSignInPrompt := false,
           sessionDismissed := false, localStore := none,
           remote := [⟨"u", "2", ⟨2, "B"⟩⟩] } (.remove 7) =
      { favourites := [⟨2, "B"⟩], currentUser := some "u",
        isFavoritesLoading := false, showSignInPrompt := false,
        sessionDismissed := false, localStore := none,
        remote := [⟨"u", "2", ⟨2, "B"⟩⟩] } := by
  exact (remove_absent_noop_amended
    { favourites := [⟨2, "B"⟩], currentUser := some "u",
      isFavoritesLoading := false, showSignInPrompt := false,
      sessionDismissed := false, localStore := none,
      remote := [⟨"u", "2", ⟨2, "B"⟩⟩] } 7 "u" rfl).1 rfl (by decide)

/-- C10: at every reachable anonymous state, after a completed add or
remove the local-storage value under "favourites" is exactly the (JSON
encoding of the) new in-memory favourites list. -/
theorem anonymous_store_sync (s0 : AppState) (u : Option String) (es : List Event)
    (m : Movie) (mid : Nat)
    (h : (run (step s0 (.authChange u)) es).currentUser = none) :
    (step (run (step s0 (.authChange u)) es) (.add m)).localStore =
      some (step (run (step s0 (.authChange u)) es) (.add m)).favourites ∧
    (step (run (step s0 (.authChange u)) es) (.remove mid)).localStore =
      some (step (run (step s0 (.authChange u)) es) (.remove mid)).favourites := by
  have hinv : StoreInv (run (step s0 (.authChange u)) es) :=
    storeInv_run _ es (storeInv_authChange s0 u)
  generalize hs : run (step s0 (.authChange u)) es = s at *
  constructor
  · by_cases hmem : s.favourites.any (fun fm => fm.id == m.id) = true
    · have hls : s.localStore = some s.favourites := by
        cases hls2 : s.localStore with
        | none =>
            have hfav : s.favourites = [] := by
              simpa [StoreInv, activeList, h, hls2] using hinv
            rw [hfav] at hmem
            simp at hmem
        | some l =>
            have hfav : s.favourites = l := by
              simpa [StoreInv, activeList, h, hls2] using hinv
            rw [hfav]
      rw [add_anon_skip s m h hmem, hls]
    · have hmem2 := Bool.eq_false_iff.mpr hmem
      obtain ⟨hf, hl, -⟩ := add_anon_app s m h hmem2
      rw [hf, hl]
  · simp [step, removeFromFavourites, h]

theorem anonymous_store_sync_witness :
    (step (run (step { favourites := [], currentUser := none,
                       isFavoritesLoading := true, showSignInPrompt := false,
                       sessionDismissed := false, localStore := none, remote := [] }
        (.authChange none)) []) (.add ⟨5, "X"⟩)).localStore =
      some (step (run (step { favourites := [], currentUser := none,
                              isFavoritesLoading := true, showSignInPrompt := false,
                              sessionDismissed := false, localStore := none,
                              remote := [] }
        (.authChange none)) []) (.add ⟨5, "X"⟩)).favourites ∧
    (step (run (step { favourites := [], currentUser := none,
                       isFavoritesLoading := true, showSignInPrompt := false,
                       sessionDismissed := false, localStore := none, remote := [] }
        (.authChange none)) []) (.remove 9)).localStore =
      some (step (run (step { favourites := [], currentUser := none,
                              isFavoritesLoading := true, showSignInPrompt := false,
                              sessionDismissed := false, localStore := none,
                              remote := [] }
        (.authChange none)) []) (.remove 9)).favourites := by
  exact anonymous_store_sync
    { favourites := [], currentUser := none, isFavoritesLoading := true,
      showSignInPrompt := false, sessionDismissed := false, localStore := none,
      remote := [] } none [] ⟨5, "X"⟩ 9 (by decide)

/-! ### Error-handling properties -/

/-- C3 counterexample: a rejection of a migration existence-check or batch
commit during sign-in is not caught anywhere in the core — the auth-state
handler has no try/catch around the migration block — so it escapes as an
uncaught rejection and no catch block of the core logs it, contradicting
the claim that every remote failure is logged and contained. -/
theorem migration_error_escapes_uncaught :
    (handleAuthChange true false
      { favourites := [], currentUser := none, isFavoritesLoading := false,
        showSignInPrompt := false, sessionDismissed := false,
        localStore := some [⟨5, "X"⟩], remote := [] } (some "u")).uncaught = true ∧
    (handleAuthChange true false
      { favourites := [], currentUser := none, isFavoritesLoading := false,
        showSignInPrompt := false, sessionDismissed := false,
        localStore := some [⟨5, "X"⟩], remote := [] } (some "u")).logged = false := by
  decide

/-- C3 amended: failures of the add and remove remote writes are caught and
logged and leave the list stale (state unchanged); a failure of the live
subscription is caught by the error callback, logged, and degrades the list
to empty; but a failure of the migration existence-check reads or of the
migration batch commit is not caught by the core — it escapes the
auth-state handler as an uncaught rejection, unlogged, with local storage
left un-cleared. -/
theorem favourites_error_handling_amended (s : AppState) (m : Movie) (mid : Nat)
    (uid : String) (l : List Movie)
    (hl : s.localStore = some l) (hne : l ≠ []) :
    ((addToFavourites true s m).uncaught = false ∧
      (∀ uid2, s.currentUser = some uid2 → (addToFavourites true s m).state = s ∧
        (addToFavourites true s m).logged = true)) ∧
    ((removeFromFavourites true s mid).uncaught = false ∧
      (∀ uid2, s.currentUser = some uid2 → (removeFromFavourites true s mid).state = s ∧
        (removeFromFavourites true s mid).logged = true)) ∧
    ((handleAuthChange false true s (some uid)).uncaught = false ∧
      (handleAuthChange false true s (some uid)).logged = true ∧
      (handleAuthChange false true s (some uid)).state.favourites = []) ∧
    ((handleAuthChange true false s (some uid)).uncaught = true ∧
      (handleAuthChange true false s (some uid)).logged = false ∧
      (handleAuthChange true false s (some uid)).state.localStore = some l) := by
  have hlen : l.length > 0 := List.length_pos.mpr hne
  refine ⟨⟨?_, ?_⟩, ⟨?_, ?_⟩, ?_, ?_⟩
  · cases hcu : s.currentUser with
    | some uid2 => simp [addToFavourites, hcu]
    | none =>
        by_cases hmem : s.favourites.any (fun fm => fm.id == m.id) <;>
          by_cases hd : s.sessionDismissed <;>
            simp [addToFavourites, hcu, hmem, hd]
  · intro uid2 hcu
    simp [addToFavourites, hcu]
  · cases hcu : s.currentUser with
    | some uid2 => simp [removeFromFavourites, hcu]
    | none => simp [removeFromFavourites, hcu]
  · intro uid2 hcu
    simp [removeFromFavourites, hcu]
  · simp [handleAuthChange, hl, hlen, attachListener]
  · simp [handleAuthChange, hl, hlen]

theorem favourites_error_handling_amended_witness :
    (addToFavourites true
      { favourites := [], currentUser := some "u", isFavoritesLoading := false,
        showSignInPrompt := false, sessionDismissed := false,
        localStore := some [⟨5, "X"⟩], remote := [] } ⟨5, "X"⟩).uncaught = false ∧
    (handleAuthChange true false
      { favourites := [], currentUser := some "u", isFavoritesLoading := false,
        showSignInPrompt := false, sessionDismissed := false,
        localStore := some [⟨5, "X"⟩], remote := [] } (some "u")).uncaught = true := by
  have h := favourites_error_handling_amended
    { favourites := [], currentUser := some "u", isFavoritesLoading := false,
      showSignInPrompt := false, sessionDismissed := false,
      localStore := some [⟨5, "X"⟩], remote := [] } ⟨5, "X"⟩ 9 "u" [⟨5, "X"⟩]
    rfl (by decide)
  exact ⟨h.1.1, h.2.2.2.1⟩

/-! ### Metadata-gateway contract -/

/-- C8: every metadata-gateway operation fails on a non-success HTTP status
with a descriptive error whose message contains the status code and the
response body, and on success returns the parsed payload or the named
sub-field: the full object for the popular listing and for genre discovery,
`results` for search and similar, `genres` for the genre list (and the
region entry of `results` for watch providers); each operation consumes
exactly one response — no retry, no cache. -/
theorem api_error_and_payload_contract (page page2 movieId movieId2 movieId3 : Nat)
    (query region : String) (genreIds : List Nat)
    (rp : TmdbResponse PopularPayload) (rs : TmdbResponse SearchPayload)
    (rd : TmdbResponse DetailsPayload) (rsim : TmdbResponse SearchPayload)
    (rwp : TmdbResponse WatchProvidersPayload) (rg : TmdbResponse GenreListPayload)
    (rdisc : TmdbResponse PopularPayload) :
    ((rp.ok = false → ∃ pre mid post, getPopularMovies page rp =
        .error (pre ++ toString rp.status ++ mid ++ rp.bodyText ++ post)) ∧
      (rp.ok = true → getPopularMovies page rp = .ok rp.payload)) ∧
    ((rs.ok = false → ∃ pre mid post, searchMovies query rs =
        .error (pre ++ toString rs.status ++ mid ++ rs.bodyText ++ post)) ∧
      (rs.ok = true → searchMovies query rs = .ok rs.payload.results)) ∧
    ((rd.ok = false → ∃ pre mid post, getMovieDetails movieId rd =
        .error (pre ++ toString rd.status ++ mid ++ rd.bodyText ++ post)) ∧
      (rd.ok = true → getMovieDetails movieId rd = .ok rd.payload)) ∧
    ((rsim.ok = false → ∃ pre mid post, getSimilarMovies movieId2 rsim =
        .error (pre ++ toString rsim.status ++ mid ++ rsim.bodyText ++ post)) ∧
      (rsim.ok = true → getSimilarMovies movieId2 rsim = .ok rsim.payload.results)) ∧
    ((rwp.ok = false → ∃ pre mid post, getMovieWatchProviders movieId3 region rwp =
        .error (pre ++ toString rwp.status ++ mid ++ rwp.bodyText ++ post)) ∧
      (rwp.ok = true → getMovieWatchProviders movieId3 region rwp =
        .ok (match rwp.payload.results with
             | some rs2 => lookupRegion rs2 region
             | none => none))) ∧
    ((rg.ok = false → ∃ pre mid post, getMovieGenres rg =
        .error (pre ++ toString rg.status ++ mid ++ rg.bodyText ++ post)) ∧
      (rg.ok = true → getMovieGenres rg = .ok rg.payload.genres)) ∧
    ((rdisc.ok = false → ∃ pre mid post, getMoviesByGenres genreIds page2 rdisc =
        .error (pre ++ toString rdisc.status ++ mid ++ rdisc.bodyText ++ post)) ∧
      (rdisc.ok = true → getMoviesByGenres genreIds page2 rdisc = .ok rdisc.payload)) := by
  refine ⟨⟨?_, ?_⟩, ⟨?_, ?_⟩, ⟨?_, ?_⟩, ⟨?_, ?_⟩, ⟨?_, ?_⟩, ⟨?_, ?_⟩, ⟨?_, ?_⟩⟩
  · intro h
    exact ⟨"HTTP error! Status: ", ", Message: ", " for page " ++ toString page,
      by simp [getPopularMovies, h, String.append_assoc]⟩
  · intro h
    simp [getPopularMovies, h]
  · intro h
    exact ⟨"HTTP error! Status: ", ", Message: ", "",
      by simp [searchMovies, h, String.append_assoc]⟩
  · intro h
    simp [searchMovies, h]
  · intro h
    exact ⟨"Error fetching movie details for ID " ++ toString movieId ++ ": HTTP status ",
      ", Message: ", "", by simp [getMovieDetails, h, String.append_assoc]⟩
  · intro h
    simp [getMovieDetails, h]
  · intro h
    exact ⟨"Error fetching similar movies for ID " ++ toString movieId2 ++ ": HTTP status ",
      ", Message: ", "", by simp [getSimilarMovies, h, String.append_assoc]⟩
  · intro h
    simp [getSimilarMovies, h]
  · intro h
    exact ⟨"Error fetching watch providers for ID " ++ toString movieId3 ++ ": HTTP status ",
      ", Message: ", "", by simp [getMovieWatchProviders, h, String.append_assoc]⟩
  · intro h
    simp [getMovieWatchProviders, h]
  · intro h
    exact ⟨"HTTP error! Status: ", ", Message: ", "",
      by simp [getMovieGenres, h, String.append_assoc]⟩
  · intro h
    simp [getMovieGenres, h]
  · intro h
    exact ⟨"HTTP error! Status: ", ", Message: ", "",
      by simp [getMoviesByGenres, h, String.append_assoc]⟩
  · intro h
    simp [getMoviesByGenres, h]

theorem api_error_and_payload_contract_witness :
    (∃ pre mid post, getPopularMovies 1
        { ok := false, status := 404, bodyText := "not found",
          payload := { page := 1, results := [], total_pages := 0, total_results := 0 } } =
        .error (pre ++ toString (404 : Nat) ++ mid ++ "not found" ++ post)) ∧
    getMovieGenres
      { ok := true, status := 200, bodyText := "",
        payload := { genres := [⟨28, "Action"⟩] } } = .ok [⟨28, "Action"⟩] := by
  have h := api_error_and_payload_contract 1 1 1 1 1 "q" "US" []
    { ok := false, status := 404, bodyText := "not found",
      payload := { page := 1, results := [], total_pages := 0, total_results := 0 } }
    { ok := true, status := 200, bodyText := "", payload := { results := [] } }
    { ok := true, status := 200, bodyText := "", payload := { movie := ⟨1, "A"⟩ } }
    { ok := true, status := 200, bodyText := "", payload := { results := [] } }
    { ok := true, status := 200, bodyText := "", payload := { results := none } }
    { ok := true, status := 200, bodyText := "",
      payload := { genres := [⟨28, "Action"⟩] } }
    { ok := true, status := 200, bodyText := "",
      payload := { page := 1, results := [], total_pages := 0, total_results := 0 } }
  exact ⟨h.1.1 rfl, h.2.2.2.2.2.1.2 rfl⟩

/-! ### Delete-account properties -/

theorem collDocs_deleteUserDocs (db : RemoteDB) (uid : String) :
    collDocs (deleteUserDocs db uid) uid = [] := by
  induction db with
  | nil => simp [deleteUserDocs, collDocs]
  | cons d rest ih =>
      by_cases hd : d.uid = uid
      · simp [deleteUserDocs, hd, ih]
      · simp [deleteUserDocs, hd, collDocs, ih]

/-- C9: with a user signed in, delete-account first deletes every document
of that user's remote favorites collection and only then deletes the
identity record — so when the provider rejects the identity deletion for
lack of a recent login, the favorites documents are already gone, the
identity record survives, and the surfaced error is the specific retryable
re-authentication message, never the generic failure message. -/
theorem delete_account_sequencing (st : AccountState) (uid : String)
    (h : st.currentUser = some uid) :
    (collDocs (confirmDeleteAction st uid .success).remote uid = [] ∧
      (confirmDeleteAction st uid .success).identities =
        st.identities.filter (fun u => u != uid)) ∧
    (collDocs (confirmDeleteAction st uid .requiresRecentLogin).remote uid = [] ∧
      (confirmDeleteAction st uid .requiresRecentLogin).identities = st.identities ∧
      (confirmDeleteAction st uid .requiresRecentLogin).authError =
        "Please sign in again recently to delete your account. (Sign out and sign back in, then try again)." ∧
      (∀ msg, (confirmDeleteAction st uid .requiresRecentLogin).authError ≠
        "Failed to delete account: " ++ msg)) := by
  refine ⟨⟨?_, ?_⟩, ?_, ?_, ?_, ?_⟩
  · simp [confirmDeleteAction, collDocs_deleteUserDocs]
  · simp [confirmDeleteAction]
  · simp [confirmDeleteAction, collDocs_deleteUserDocs]
  · simp [confirmDeleteAction]
  · simp [confirmDeleteAction]
  · intro msg hc
    simp only [confirmDeleteAction] at hc
    have h2 := congrArg String.data hc
    rw [String.data_append] at h2
    simp at h2

theorem delete_account_sequencing_witness :
    collDocs
      (confirmDeleteAction
        { currentUser := some "u", identities := ["u"],
          remote := [⟨"u", "5", ⟨5, "X"⟩⟩], authError := "",
          feedbackMessage := "" } "u" .requiresRecentLogin).remote "u" = [] ∧
    (confirmDeleteAction
      { currentUser := some "u", identities := ["u"],
        remote := [⟨"u", "5", ⟨5, "X"⟩⟩], authError := "",
        feedbackMessage := "" } "u" .requiresRecentLogin).identities = ["u"] := by
  have h := delete_account_sequencing
    { currentUser := some "u", identities := ["u"],
      remote := [⟨"u", "5", ⟨5, "X"⟩⟩], authError := "",
      feedbackMessage := "" } "u" rfl
  exact ⟨h.2.1, h.2.2.1⟩
